import Mathlib

/-
Verification of the OpenSync room coordination server (server.js).

The server state is shallowly embedded:
  * a WebSocket connection is identified by a natural number (its `connId`);
    the per-connection mutable `clientData` record is a `Session`;
  * `clientData` objects are shared by reference between the connection
    closure and `room.clients`, so the model keeps a single store
    `conns : Nat → Session` and rooms hold only connection ids;
  * JS strings-or-null are `Option String` (`none` = null/undefined);
    JS truthiness (empty string and 0 are falsy) is modelled explicitly;
  * room codes are lists of UTF-16 code units (`List Nat`) so that
    `toUpperCase` is a plain map over code units;
  * `setTimeout`/`clearTimeout` become an explicit table of armed timers;
    a timer firing is a separate transition (`Event.fireTimer`);
  * `Math.random`-driven code generation takes an explicit stream of
    random numbers and fuel for the retry-on-collision recursion.
Message sends are accumulated as `(destination connId, message)` pairs;
`sendToClient` drops the message when the destination socket is not OPEN,
exactly as the source does.
-/

namespace OpenSync

/-- JS string-or-null: `none` is null/undefined, `some s` a string value. -/
abbrev JStr := Option String

/-- JS truthiness of a string-or-null: null, undefined and the empty string
are falsy. -/
def truthyS : JStr → Bool
  | none => false
  | some s => !(s == emptyStr)
where emptyStr : String := ""

/-- JS `v || d` for a string-or-null `v` and string default `d`. -/
def jsOrStr (v : JStr) (d : String) : String :=
  match v with
  | some s => if truthyS (some s) then s else d
  | none => d

/-- JS `a || b` where both operands are string-or-null. -/
def jsOrOpt (a b : JStr) : JStr := if truthyS a then a else b

/-- JS `v || d` for a number-or-null `v` (0 is falsy). -/
def jsOrInt (v : Option Int) (d : Int) : Int :=
  match v with
  | some x => if x = 0 then d else x
  | none => d

/-- JS `!b` on a boolean-or-undefined (undefined is falsy). -/
def truthyB : Option Bool → Bool
  | none => false
  | some b => b

/-- One UTF-16 code unit uppercased the way `String.prototype.toUpperCase`
acts on ASCII (the only characters room codes can contain). -/
def upperCode (n : Nat) : Nat := if 97 ≤ n ∧ n ≤ 122 then n - 32 else n

/-- `roomCode.toUpperCase()` on a code modelled as a list of code units. -/
def jsUpper (cs : List Nat) : List Nat := cs.map upperCode

/-- Association-list lookup (JS `Map.get`). -/
def alGet {α β : Type} [DecidableEq α] (k : α) : List (α × β) → Option β
  | [] => none
  | (k2, v) :: t => if k2 = k then some v else alGet k t

/-- Association-list update (JS `Map.set`: overwrite in place, else append). -/
def alSet {α β : Type} [DecidableEq α] (k : α) (v : β) : List (α × β) → List (α × β)
  | [] => [(k, v)]
  | (k2, v2) :: t => if k2 = k then (k2, v) :: t else (k2, v2) :: alSet k v t

/-- Association-list removal (JS `Map.delete`). -/
def alErase {α β : Type} [DecidableEq α] (k : α) : List (α × β) → List (α × β)
  | [] => []
  | (k2, v2) :: t => if k2 = k then t else (k2, v2) :: alErase k t

/-- Per-connection mutable record (`clientData` in server.js), together with
the OPEN/not-OPEN status of its WebSocket. -/
structure Session where
  wsOpen : Bool
  roomCode : Option (List Nat)
  username : JStr
  isHost : Bool
  currentUrl : JStr
  isNavigating : Bool
  isReady : Bool
deriving Repr, DecidableEq

/-- The `clientData` object as initialized on connection. -/
def initSession : Session :=
  { wsOpen := true, roomCode := none, username := none, isHost := false,
    currentUrl := none, isNavigating := false, isReady := true }

/-- An entry of `room.pendingDisconnects`. -/
structure Pending where
  timerId : Nat
  wasHost : Bool
  disconnectedAt : Nat
deriving Repr, DecidableEq

/-- `room.videoState`. `isPlaying` is an `Option` because a SEEK payload may
omit it; `playbackRate` is present only when set by a SYNC. -/
structure VideoState where
  currentTime : Int
  isPlaying : Option Bool
  playbackRate : Option Int
  lastUpdated : Nat
deriving Repr, DecidableEq

/-- A room record. `id` models JS object identity (timer callbacks capture
the room object itself, which may outlive its registry entry); `host` and
`clients` hold connection ids in place of `ws` references. -/
structure Room where
  id : Nat
  code : List Nat
  host : Nat
  clients : List Nat
  videoState : Option VideoState
  currentUrl : JStr
  platform : JStr
  pendingDisconnects : List (String × Pending)
  pendingSyncTime : Option Int
  pendingSyncUser : JStr
  deleteTimeout : Option Nat
  createdAt : Nat
deriving Repr, DecidableEq

/-- Armed timers: the grace-period expiry (capturing the room object, the
room code, the username and the disconnected `clientData`), the 3-second
navigation-flag reset, and the 2-minute empty-room deletion. -/
inductive TimerKind where
  | grace (roomId : Nat) (roomCode : List Nat) (username : String) (connId : Nat)
  | navClear (connId : Nat)
  | deleteRoom (roomCode : List Nat)
deriving Repr, DecidableEq

/-- Whole-server state: the `rooms` registry, the store of all `clientData`
records, the armed timers and fresh-id/clock counters. -/
structure ServerState where
  rooms : List (List Nat × Room)
  conns : Nat → Session
  timers : List (Nat × TimerKind)
  nextTimerId : Nat
  nextRoomId : Nat
  now : Nat

def initState : ServerState :=
  { rooms := [], conns := fun _ => initSession, timers := [],
    nextTimerId := 0, nextRoomId := 0, now := 0 }

def lookupRoom (s : ServerState) (code : List Nat) : Option Room :=
  alGet code s.rooms

def setRoom (s : ServerState) (code : List Nat) (r : Room) : ServerState :=
  { s with rooms := alSet code r s.rooms }

/-- Update the registry entry whose room object has identity `rid`, if any
(a mutation of a captured room object no longer in the registry is
unobservable). -/
def updRoomById (s : ServerState) (rid : Nat) (r : Room) : ServerState :=
  { s with rooms := s.rooms.map (fun kv => if kv.2.id = rid then (kv.1, r) else kv) }

def updConn (s : ServerState) (i : Nat) (f : Session → Session) : ServerState :=
  { s with conns := fun j => if j = i then f (s.conns j) else s.conns j }

/-- Message types PLAY/PAUSE/SEEK/BUFFER. -/
inductive VCType where
  | play | pause | seek | buffer
deriving Repr, DecidableEq

/-- Server-to-client messages (payload fields only; the envelope timestamp
carries no protocol content). -/
inductive SMsg where
  | roomCreated (roomCode : List Nat) (participants : Nat) (platform : JStr)
  | roomJoined (roomCode : List Nat) (participants : Nat) (currentUrl : JStr)
      (platform : JStr) (isReconnection : Bool)
  | roomError (message : String)
  | userJoined (username : String) (participants : Nat)
  | userLeft (username : JStr) (participants : Nat)
  | videoCmd (ty : VCType) (currentTime : Int) (isPlaying : Option Bool)
      (isBuffering : Option Bool) (username : JStr)
  | sync (vs : VideoState)
  | chat (username : JStr) (text : JStr)
  | urlChange (url : JStr) (username : JStr) (syncTime : Int)
  | waitingForOthers (ready : Nat) (total : Nat)
  | allReady (currentTime : Int) (participants : Nat)
deriving Repr, DecidableEq

/-- `sendToClient`: delivered only when the destination socket is OPEN. -/
def sendTo (s : ServerState) (dest : Nat) (m : SMsg) : List (Nat × SMsg) :=
  if (s.conns dest).wsOpen then [(dest, m)] else []

/-- `broadcastToRoom(roomCode, type, payload, excludeWs)`. -/
def broadcastToRoom (s : ServerState) (code : List Nat) (m : SMsg)
    (excl : Option Nat) : List (Nat × SMsg) :=
  match lookupRoom s code with
  | none => []
  | some room =>
      (room.clients.filter (fun c => (excl != some c) && (s.conns c).wsOpen)).map
        (fun c => (c, m))

/-- The fixed alphabet of `generateRoomCode`, as UTF-16 code units of
`ABCDEFGHJKLMNPQRSTUVWXYZ23456789`. -/
def codeChars : List Nat :=
  codeCharsSrc.toList.map Char.toNat
where codeCharsSrc : String := "ABCDEFGHJKLMNPQRSTUVWXYZ23456789"

/-- One pass of the `for` loop of `generateRoomCode`: six characters picked
by `chars.charAt(Math.floor(Math.random() * chars.length))`, the stream of
random draws modelled by `rand` read at positions `start..start+5`. -/
def genCodeChars (rand : Nat → Nat) (start : Nat) : List Nat :=
  (List.range 6).map (fun i => codeChars.getD (rand (start + i) % codeChars.length) 0)

/-- `generateRoomCode`: retry (recursively) while the candidate collides
with a live room code.  `live` is the set of keys of `rooms`; `fuel` bounds
the recursion, `none` meaning the retry budget ran out. -/
def generateRoomCode (live : List (List Nat)) (rand : Nat → Nat) :
    Nat → Nat → Option (List Nat)
  | 0, _ => none
  | fuel + 1, start =>
      let code := genCodeChars rand start
      if live.contains code then generateRoomCode live rand fuel (start + 6)
      else some code

def strHost : String := "Host"
def strGuest : String := "Guest"
def strRoomNotFound : String := "Room not found"

/-- `handleCreateRoom`.  The generated room code is passed in explicitly
(`generateRoomCode` is modelled separately, with its randomness source). -/
def handleCreateRoom (s : ServerState) (connId : Nat) (code : List Nat)
    (username platform : JStr) : ServerState × List (Nat × SMsg) :=
  let uname := jsOrStr username strHost
  let plat := if truthyS platform then platform else none
  let room : Room :=
    { id := s.nextRoomId, code := code, host := connId, clients := [connId],
      videoState := none, currentUrl := none, platform := plat,
      pendingDisconnects := [], pendingSyncTime := none, pendingSyncUser := none,
      deleteTimeout := none, createdAt := s.now }
  let s := setRoom { s with nextRoomId := s.nextRoomId + 1 } code room
  let s := updConn s connId (fun cd =>
    { cd with roomCode := some code, username := some uname, isHost := true })
  (s, sendTo s connId (SMsg.roomCreated code 1 plat))

/-- `handleJoinRoom`. -/
def handleJoinRoom (s : ServerState) (connId : Nat)
    (roomCodeRaw : Option (List Nat)) (username : JStr) :
    ServerState × List (Nat × SMsg) :=
  match roomCodeRaw with
  | none => (s, sendTo s connId (SMsg.roomError strRoomNotFound))
  | some rcRaw =>
    let code := jsUpper rcRaw
    let uname := jsOrStr username strGuest
    match lookupRoom s code with
    | none => (s, sendTo s connId (SMsg.roomError strRoomNotFound))
    | some room =>
      -- cancel a pending room-deletion timer
      let s := match room.deleteTimeout with
        | some t => { s with timers := alErase t s.timers }
        | none => s
      let room := { room with deleteTimeout := none }
      -- grace-period reconnection under the same username
      let recon := alGet uname room.pendingDisconnects
      let isRecon := recon.isSome
      let s := match recon with
        | some pd => { s with timers := alErase pd.timerId s.timers }
        | none => s
      let room := match recon with
        | some _ => { room with pendingDisconnects := alErase uname room.pendingDisconnects }
        | none => room
      let s := match recon with
        | some pd => if pd.wasHost
            then updConn s connId (fun cd => { cd with isHost := true })
            else s
        | none => s
      let room := match recon with
        | some pd => if pd.wasHost then { room with host := connId } else room
        | none => room
      -- evict still-connected duplicate sessions with the same username
      let dups := room.clients.filter
        (fun c => ((s.conns c).username == some uname) && (c != connId))
      let keptClients := room.clients.filter
        (fun c => !(((s.conns c).username == some uname) && (c != connId)))
      let room := { room with clients := keptClients }
      let s := dups.foldl (fun acc c =>
        updConn acc c (fun cd => { cd with wsOpen := false })) s
      let s := updConn s connId (fun cd =>
        { cd with roomCode := some code, username := some uname,
                  isHost := if isRecon then cd.isHost else false })
      let room := { room with clients :=
        if room.clients.contains connId then room.clients else room.clients ++ [connId] }
      let s := setRoom s code room
      let parts := room.clients.length + room.pendingDisconnects.length
      let out1 := sendTo s connId
        (SMsg.roomJoined code parts room.currentUrl room.platform isRecon)
      let out2 := if isRecon then []
        else broadcastToRoom s code (SMsg.userJoined uname parts) (some connId)
      let out3 := match room.videoState with
        | some vs => sendTo s connId (SMsg.sync vs)
        | none => []
      (s, out1 ++ out2 ++ out3)

/-- Reset of `clientData` at the end of `handleLeaveRoom`. -/
def clearCD (cd : Session) : Session :=
  { cd with roomCode := none, username := none, isHost := false }

/-- `handleLeaveRoom(clientData, isExplicitLeave)`. -/
def handleLeaveRoom (s : ServerState) (connId : Nat) (isExplicitLeave : Bool) :
    ServerState × List (Nat × SMsg) :=
  let cd := s.conns connId
  match cd.roomCode with
  | none => (s, [])
  | some code =>
    match lookupRoom s code with
    | none => (s, [])
    | some room =>
      if !(room.clients.contains connId) then
        -- already evicted by a reconnecting session
        (updConn s connId clearCD, [])
      else
        let room := { room with clients := room.clients.erase connId }
        let hasReconnected := room.clients.any
          (fun c => (s.conns c).username == cd.username)
        if hasReconnected then
          (updConn (setRoom s code room) connId clearCD, [])
        else if !isExplicitLeave && truthyS cd.username then
          -- implicit disconnect: arm the 30-second grace timer
          let uname := jsOrStr cd.username strGuest
          let s := match alGet uname room.pendingDisconnects with
            | some pd => { s with timers := alErase pd.timerId s.timers }
            | none => s
          let tid := s.nextTimerId
          let s := { s with
            timers := s.timers ++ [(tid, TimerKind.grace room.id code uname connId)],
            nextTimerId := tid + 1 }
          let pdEntry : Pending :=
            { timerId := tid, wasHost := cd.isHost, disconnectedAt := s.now }
          let pd2 := alSet uname pdEntry room.pendingDisconnects
          let room := { room with pendingDisconnects := pd2 }
          (updConn (setRoom s code room) connId clearCD, [])
        else
          -- explicit leave: immediate removal, no grace period
          let parts := room.clients.length + room.pendingDisconnects.length
          let s := match cd.username with
            | some u => match alGet u room.pendingDisconnects with
              | some pd => { s with timers := alErase pd.timerId s.timers }
              | none => s
            | none => s
          let room := match cd.username with
            | some u => if (alGet u room.pendingDisconnects).isSome
                then { room with pendingDisconnects := alErase u room.pendingDisconnects }
                else room
            | none => room
          if parts = 0 then
            let s := match room.deleteTimeout with
              | some t => { s with timers := alErase t s.timers }
              | none => s
            let tid := s.nextTimerId
            let s := { s with timers := s.timers ++ [(tid, TimerKind.deleteRoom code)],
                              nextTimerId := tid + 1 }
            let room := { room with deleteTimeout := some tid }
            (updConn (setRoom s code room) connId clearCD, [])
          else
            let s := setRoom s code room
            let out := broadcastToRoom s code (SMsg.userLeft cd.username parts) none
            let s := if cd.isHost && decide (0 < room.clients.length) then
                match room.clients.head? with
                | some nh =>
                    setRoom (updConn s nh (fun c => { c with isHost := true })) code
                      { room with host := nh }
                | none => s
              else s
            (updConn s connId clearCD, out)

/-- The grace-period `setTimeout` callback armed by `handleLeaveRoom`.  It
captured the room object (`rid`), the room code, the username and the
departed `clientData` (`connId`); it re-validates that the pending
disconnect entry still exists before acting. -/
def fireGrace (s : ServerState) (rid : Nat) (code : List Nat) (uname : String)
    (connId : Nat) : ServerState × List (Nat × SMsg) :=
  match (s.rooms.find? (fun kv => kv.2.id == rid)).map Prod.snd with
  | none => (s, [])
  | some room =>
    if (alGet uname room.pendingDisconnects).isSome then
      let room := { room with pendingDisconnects := alErase uname room.pendingDisconnects }
      let effParts := room.clients.length + room.pendingDisconnects.length
      let s := updRoomById s rid room
      let out := if decide (0 < room.clients.length)
        then broadcastToRoom s code (SMsg.userLeft (some uname) effParts) none
        else []
      -- the callback reads `clientData.isHost`, not the stored `wasHost`
      let s := if (s.conns connId).isHost && decide (0 < room.clients.length) then
          match room.clients.head? with
          | some nh =>
              updRoomById (updConn s nh (fun c => { c with isHost := true })) rid
                { room with host := nh }
          | none => s
        else s
      let s := if room.clients.length = 0 && room.pendingDisconnects.length = 0 then
          let s := match room.deleteTimeout with
            | some t => { s with timers := alErase t s.timers }
            | none => s
          let tid := s.nextTimerId
          let s := { s with timers := s.timers ++ [(tid, TimerKind.deleteRoom code)],
                            nextTimerId := tid + 1 }
          updRoomById s rid { room with deleteTimeout := some tid }
        else s
      (s, out)
    else (s, [])

/-- The 2-minute empty-room deletion callback (it looks the room up afresh
by code and re-validates emptiness). -/
def fireDelete (s : ServerState) (code : List Nat) : ServerState :=
  match lookupRoom s code with
  | none => s
  | some r =>
      if r.clients.length = 0 && r.pendingDisconnects.length = 0
      then { s with rooms := alErase code s.rooms }
      else s

/-- Payload of PLAY/PAUSE/SEEK/BUFFER. -/
structure VCPayload where
  currentTime : Int
  isPlaying : Option Bool
  isBuffering : Option Bool
deriving Repr, DecidableEq

/-- The `isPlaying` derivation of `handleVideoControl`: SEEK carries it in
the payload, BUFFER maps it to `!isBuffering`, PLAY/PAUSE derive it from
the message type. -/
def vcIsPlaying (ty : VCType) (p : VCPayload) : Option Bool :=
  match ty with
  | VCType.seek => p.isPlaying
  | VCType.buffer => some (!(truthyB p.isBuffering))
  | VCType.play => some true
  | VCType.pause => some false

/-- `clientData.currentUrl || room.currentUrl` — a session's effective URL. -/
def effUrl (cd : Session) (room : Room) : JStr := jsOrOpt cd.currentUrl room.currentUrl

/-- The URL partition test of the broadcast loops: skip a destination when
both effective URLs are known (truthy) and differ. -/
def urlMismatch (room : Room) (sender dest : Session) : Bool :=
  truthyS (effUrl sender room) && truthyS (effUrl dest room) &&
    (effUrl sender room != effUrl dest room)

/-- `handleVideoControl(clientData, type, payload)`. -/
def handleVideoControl (s : ServerState) (connId : Nat) (ty : VCType)
    (p : VCPayload) : ServerState × List (Nat × SMsg) :=
  let cd := s.conns connId
  match cd.roomCode with
  | none => (s, [])
  | some code =>
    match lookupRoom s code with
    | none => (s, [])
    | some room =>
      if cd.isNavigating then (s, [])
      else
        let vs : VideoState :=
          { currentTime := p.currentTime, isPlaying := vcIsPlaying ty p,
            playbackRate := none, lastUpdated := s.now }
        let room := { room with videoState := some vs }
        let s := setRoom s code room
        let dests := room.clients.filter (fun c =>
          (c != connId) && (s.conns c).wsOpen && !(s.conns c).isNavigating &&
            !(urlMismatch room cd (s.conns c)))
        (s, dests.map (fun c =>
          (c, SMsg.videoCmd ty p.currentTime (vcIsPlaying ty p) p.isBuffering cd.username)))

/-- Payload of SYNC. -/
structure SyncPayload where
  currentTime : Int
  isPlaying : Option Bool
  playbackRate : Option Int
deriving Repr, DecidableEq

/-- `handleSync(clientData, payload)`. -/
def handleSync (s : ServerState) (connId : Nat) (p : SyncPayload) :
    ServerState × List (Nat × SMsg) :=
  let cd := s.conns connId
  match cd.roomCode with
  | none => (s, [])
  | some code =>
    match lookupRoom s code with
    | none => (s, [])
    | some room =>
      if cd.isNavigating then (s, [])
      else
        let vs : VideoState :=
          { currentTime := p.currentTime, isPlaying := p.isPlaying,
            playbackRate := some (jsOrInt p.playbackRate 1), lastUpdated := s.now }
        let room := { room with videoState := some vs }
        let s := setRoom s code room
        let dests := room.clients.filter (fun c =>
          (c != connId) && (s.conns c).wsOpen && !(s.conns c).isNavigating &&
            !(urlMismatch room cd (s.conns c)))
        (s, dests.map (fun c => (c, SMsg.sync vs)))

/-- `handleChat(clientData, payload)`: relay to everyone else in the room,
the username taken from the payload when truthy, else from the session. -/
def handleChat (s : ServerState) (connId : Nat) (puser ptext : JStr) :
    ServerState × List (Nat × SMsg) :=
  let cd := s.conns connId
  match cd.roomCode with
  | none => (s, [])
  | some code =>
      (s, broadcastToRoom s code (SMsg.chat (jsOrOpt puser cd.username) ptext)
            (some connId))

/-- `handleUrlChange(clientData, payload)`. -/
def handleUrlChange (s : ServerState) (connId : Nat) (url : JStr)
    (currentTime : Option Int) : ServerState × List (Nat × SMsg) :=
  let cd := s.conns connId
  match cd.roomCode with
  | none => (s, [])
  | some code =>
    match lookupRoom s code with
    | none => (s, [])
    | some room =>
      let s := updConn s connId
        (fun c => { c with isNavigating := true, currentUrl := url })
      let tid := s.nextTimerId
      let s := { s with timers := s.timers ++ [(tid, TimerKind.navClear connId)],
                        nextTimerId := tid + 1 }
      let s := room.clients.foldl
        (fun acc c => updConn acc c (fun cl => { cl with isReady := false })) s
      let syncT := jsOrInt currentTime 0
      let room := { room with currentUrl := url, pendingSyncTime := some syncT,
                              pendingSyncUser := cd.username }
      let s := setRoom s code room
      (s, broadcastToRoom s code (SMsg.urlChange url cd.username syncT) (some connId))

/-- `handleVideoReady(clientData, payload)`: mark the sender ready, then
re-evaluate the barrier over `room.clients`. -/
def handleVideoReady (s : ServerState) (connId : Nat) :
    ServerState × List (Nat × SMsg) :=
  let cd := s.conns connId
  match cd.roomCode with
  | none => (s, [])
  | some code =>
    match lookupRoom s code with
    | none => (s, [])
    | some room =>
      let s := updConn s connId
        (fun c => { c with isReady := true, currentUrl := room.currentUrl })
      let total := room.clients.length
      let ready := (room.clients.filter (fun c => (s.conns c).isReady)).length
      let allR := room.clients.all (fun c => (s.conns c).isReady)
      if allR && decide (0 < total) then
        let syncTime := jsOrInt room.pendingSyncTime 0
        let out := (room.clients.filter (fun c => (s.conns c).wsOpen)).map
          (fun c => (c, SMsg.allReady syncTime total))
        let room := { room with pendingSyncTime := none, pendingSyncUser := none }
        (setRoom s code room, out)
      else
        (s, (room.clients.filter (fun c => (s.conns c).wsOpen)).map
          (fun c => (c, SMsg.waitingForOthers ready total)))

/-- The events a trace can contain: inbound client messages, the implicit
disconnect (socket close), and the firing of an armed timer. -/
inductive Event where
  | createRoom (connId : Nat) (code : List Nat) (username platform : JStr)
  | joinRoom (connId : Nat) (roomCode : Option (List Nat)) (username : JStr)
  | leaveRoom (connId : Nat)
  | disconnect (connId : Nat)
  | videoControl (connId : Nat) (ty : VCType) (p : VCPayload)
  | syncMsg (connId : Nat) (p : SyncPayload)
  | chatMsg (connId : Nat) (puser ptext : JStr)
  | urlChange (connId : Nat) (url : JStr) (currentTime : Option Int)
  | videoReady (connId : Nat)
  | fireTimer (tid : Nat)
deriving Repr, DecidableEq

/-- One transition of the server. -/
def step (s : ServerState) : Event → ServerState × List (Nat × SMsg)
  | Event.createRoom id code u p => handleCreateRoom s id code u p
  | Event.joinRoom id rc u => handleJoinRoom s id rc u
  | Event.leaveRoom id => handleLeaveRoom s id true
  | Event.disconnect id =>
      handleLeaveRoom (updConn s id (fun c => { c with wsOpen := false })) id false
  | Event.videoControl id ty p => handleVideoControl s id ty p
  | Event.syncMsg id p => handleSync s id p
  | Event.chatMsg id pu pt => handleChat s id pu pt
  | Event.urlChange id u t => handleUrlChange s id u t
  | Event.videoReady id => handleVideoReady s id
  | Event.fireTimer tid =>
      match alGet tid s.timers with
      | none => (s, [])
      | some k =>
          let s := { s with timers := alErase tid s.timers }
          match k with
          | TimerKind.grace rid code u cid => fireGrace s rid code u cid
          | TimerKind.navClear cid =>
              (updConn s cid (fun c => { c with isNavigating := false }), [])
          | TimerKind.deleteRoom code => (fireDelete s code, [])

/-- Run a trace of events, accumulating all sent messages in order. -/
def runTrace (s : ServerState) : List Event → ServerState × List (Nat × SMsg)
  | [] => (s, [])
  | e :: es =>
      let r := step s e
      let r2 := runTrace r.1 es
      (r2.1, r.2 ++ r2.2)

/-! ### Helper lemmas -/

theorem upperCode_idem (n : Nat) : upperCode (upperCode n) = upperCode n := by
  by_cases h : 97 ≤ n ∧ n ≤ 122
  · have h2 : ¬(97 ≤ n - 32 ∧ n - 32 ≤ 122) := by omega
    simp only [upperCode, if_pos h, if_neg h2]
  · simp only [upperCode, if_neg h]

theorem jsUpper_idem (l : List Nat) : jsUpper (jsUpper l) = jsUpper l := by
  simp only [jsUpper, List.map_map]
  exact List.map_congr_left (fun a _ => upperCode_idem a)

theorem alGet_alSet_self {α β : Type} [DecidableEq α] (k : α) (v : β)
    (l : List (α × β)) : alGet k (alSet k v l) = some v := by
  induction l with
  | nil => simp [alSet, alGet]
  | cons h t ih =>
      by_cases hk : h.1 = k
      · simp [alSet, alGet, hk]
      · simp [alSet, alGet, hk, ih]

theorem alGet_eq_none_of_not_mem_keys {α β : Type} [DecidableEq α] (k : α)
    (l : List (α × β)) (h : k ∉ l.map Prod.fst) : alGet k l = none := by
  induction l with
  | nil => rfl
  | cons hd t ih =>
      simp only [List.map_cons, List.mem_cons] at h
      push_neg at h
      have h1 : ¬ hd.1 = k := fun hh => h.1 hh.symm
      simp [alGet, h1, ih h.2]

theorem alErase_keys_sublist {α β : Type} [DecidableEq α] (k : α)
    (l : List (α × β)) : ((alErase k l).map Prod.fst).Sublist (l.map Prod.fst) := by
  induction l with
  | nil => simp [alErase]
  | cons h t ih =>
      by_cases hk : h.1 = k
      · simp only [alErase, if_pos hk, List.map_cons]
        exact List.sublist_cons_self _ _
      · simp only [alErase, if_neg hk, List.map_cons]
        exact ih.cons₂ _

theorem alGet_alErase_self {α β : Type} [DecidableEq α] (k : α)
    (l : List (α × β)) (h : (l.map Prod.fst).Nodup) : alGet k (alErase k l) = none := by
  induction l with
  | nil => rfl
  | cons hd t ih =>
      simp only [List.map_cons, List.nodup_cons] at h
      by_cases hk : hd.1 = k
      · rw [alErase, if_pos hk]
        exact alGet_eq_none_of_not_mem_keys k t (hk ▸ h.1)
      · rw [alErase, if_neg hk, alGet, if_neg hk]
        exact ih h.2

theorem bne_some_comm (a b : Nat) : (some a != some b) = (b != a) := by
  by_cases h : a = b
  · simp [h]
  · simp [bne, h, Ne.symm h]

theorem list_all_congr {α : Type} (l : List α) (f g : α → Bool)
    (h : ∀ a ∈ l, f a = g a) : l.all f = l.all g := by
  induction l with
  | nil => rfl
  | cons hd t ih =>
      simp only [List.all_cons, h hd (List.mem_cons_self hd t)]
      rw [ih (fun a ha => h a (List.mem_cons_of_mem hd ha))]

theorem codeChars_getD_mem : ∀ k, k < codeChars.length → codeChars.getD k 0 ∈ codeChars := by
  decide

/-! ### C8 — room code generation -/

/-- Claim C8: every code returned by `generateRoomCode` is exactly 6
characters, each drawn from the 32-symbol alphabet
`ABCDEFGHJKLMNPQRSTUVWXYZ23456789`, and is absent from the currently live
room codes (collisions trigger regeneration). -/
theorem c8_generateRoomCode_sound (live : List (List Nat)) (rand : Nat → Nat)
    (fuel start : Nat) (c : List Nat)
    (h : generateRoomCode live rand fuel start = some c) :
    c.length = 6 ∧ (∀ x ∈ c, x ∈ codeChars) ∧ c ∉ live := by
  induction fuel generalizing start with
  | zero => exact absurd h (by simp [generateRoomCode])
  | succ fuel ih =>
      by_cases hc : live.contains (genCodeChars rand start)
      · rw [generateRoomCode, if_pos hc] at h
        exact ih _ h
      · rw [generateRoomCode, if_neg hc] at h
        have hcode : genCodeChars rand start = c := by
          simpa using h
        subst hcode
        refine ⟨by simp [genCodeChars], ?_, ?_⟩
        · intro x hx
          simp only [genCodeChars, List.mem_map, List.mem_range] at hx
          obtain ⟨i, _, rfl⟩ := hx
          exact codeChars_getD_mem _ (Nat.mod_lt _ (by decide))
        · intro hmem
          exact hc (List.elem_eq_true_of_mem hmem)

/-- Witness for C8 at a concrete randomness stream and empty registry. -/
theorem c8_witness :
    generateRoomCode [] (fun i => i) 1 0 = some [65, 66, 67, 68, 69, 70] ∧
      ([65, 66, 67, 68, 69, 70] : List Nat).length = 6 ∧
      (∀ x ∈ ([65, 66, 67, 68, 69, 70] : List Nat), x ∈ codeChars) ∧
      ([65, 66, 67, 68, 69, 70] : List Nat) ∉ ([] : List (List Nat)) :=
  ⟨by decide, c8_generateRoomCode_sound [] (fun i => i) 1 0 _ (by decide)⟩

/-! ### C9 — case-insensitive room code lookup -/

/-- Claim C9: the server uppercases the supplied room code before the
registry lookup, so a JOIN_ROOM with any (lowercase or mixed-case)
rendering of a code behaves identically — same state, same responses — to
a JOIN_ROOM with the canonical uppercase code. -/
theorem c9_join_uppercases_code (s : ServerState) (connId : Nat)
    (rc : List Nat) (u : JStr) :
    handleJoinRoom s connId (some rc) u =
      handleJoinRoom s connId (some (jsUpper rc)) u := by
  simp only [handleJoinRoom, jsUpper_idem]

/-! ### C7 — JOIN_ROOM against a nonexistent code -/

/-- Claim C7: a JOIN_ROOM whose (uppercased) room code is absent from the
registry produces exactly one ROOM_ERROR "Room not found" to the requester
and leaves the entire server state — rooms, timers and every session —
unchanged; the requester's connection stays open. -/
theorem c7_join_missing_room (s : ServerState) (connId : Nat)
    (rc : List Nat) (u : JStr)
    (hopen : (s.conns connId).wsOpen = true)
    (habsent : lookupRoom s (jsUpper rc) = none) :
    handleJoinRoom s connId (some rc) u =
      (s, [(connId, SMsg.roomError strRoomNotFound)]) := by
  simp only [handleJoinRoom, habsent, sendTo, hopen, if_true]

/-- Witness for C7: joining the empty registry with code "ABC234". -/
theorem c7_witness :
    ((initState.conns 5).wsOpen = true ∧
        lookupRoom initState (jsUpper [65, 66, 67, 50, 51, 52]) = none) ∧
      handleJoinRoom initState 5 (some [65, 66, 67, 50, 51, 52]) none =
        (initState, [(5, SMsg.roomError strRoomNotFound)]) :=
  ⟨⟨rfl, rfl⟩, c7_join_missing_room initState 5 [65, 66, 67, 50, 51, 52] none rfl rfl⟩

/-! ### C10 — chat relay -/

/-- Claim C10: a CHAT from a session whose `roomCode` names an existing
room is relayed, unmodified in state, to every other open connection in
that room — never echoed to the sender and not filtered by
`isNavigating`, `isReady` or `currentUrl` — with the relayed username
taken from the payload when truthy (unvalidated) and otherwise from the
sender's session. -/
theorem c10_chat_relay (s : ServerState) (connId : Nat) (puser ptext : JStr)
    (code : List Nat) (room : Room)
    (hrc : (s.conns connId).roomCode = some code)
    (hroom : lookupRoom s code = some room) :
    handleChat s connId puser ptext =
      (s, (room.clients.filter (fun c => (c != connId) && (s.conns c).wsOpen)).map
            (fun c => (c, SMsg.chat (jsOrOpt puser (s.conns connId).username) ptext))) := by
  simp only [handleChat, hrc, broadcastToRoom, hroom]
  refine congrArg _ (congrArg _ ?_)
  exact List.filter_congr (fun c _ => by rw [bne_some_comm])

theorem lookupRoom_setRoom_self (s : ServerState) (code : List Nat) (r : Room) :
    lookupRoom (setRoom s code r) code = some r :=
  alGet_alSet_self code r s.rooms

/-! ### Concrete two-participant scenario, used by witnesses and
counterexamples: H (connection 0) creates room "ABC234", G (connection 1)
joins it. -/

def wCode : List Nat := [65, 66, 67, 50, 51, 52]
def wStrH : String := "H"
def wStrG : String := "G"
def wStrHi : String := "hi"
def wUrl : String := "https://example.test/v2"

def wTrace : List Event :=
  [Event.createRoom 0 wCode (some wStrH) none,
   Event.joinRoom 1 (some wCode) (some wStrG)]

def wState : ServerState := (runTrace initState wTrace).1

def wRoom : Room :=
  { id := 0, code := wCode, host := 0, clients := [0, 1], videoState := none,
    currentUrl := none, platform := none, pendingDisconnects := [],
    pendingSyncTime := none, pendingSyncUser := none, deleteTimeout := none,
    createdAt := 0 }

/-- Witness for C10: G chats in the two-participant room; the one relayed
message goes to H only, under the sender's session username. -/
theorem c10_witness :
    ((wState.conns 1).roomCode = some wCode ∧ lookupRoom wState wCode = some wRoom) ∧
      handleChat wState 1 none (some wStrHi) =
        (wState,
          (wRoom.clients.filter (fun c => (c != 1) && (wState.conns c).wsOpen)).map
            (fun c => (c, SMsg.chat (jsOrOpt none (wState.conns 1).username) (some wStrHi)))) :=
  ⟨⟨rfl, rfl⟩, c10_chat_relay wState 1 none (some wStrHi) wCode wRoom rfl rfl⟩

/-! ### C6 — video-state update on PLAY/PAUSE/SEEK/BUFFER -/

/-- The video state claim C6 says a PLAY/PAUSE/SEEK/BUFFER must install:
`currentTime` from the payload, `isPlaying` from the payload for SEEK,
the negation of `isBuffering` for BUFFER, true for PLAY and false for
PAUSE, and `lastUpdated = now`. -/
def c6ExpectedVS (ty : VCType) (p : VCPayload) (now : Nat) : VideoState :=
  { currentTime := p.currentTime,
    isPlaying := match ty with
      | VCType.seek => p.isPlaying
      | VCType.buffer => some (!(truthyB p.isBuffering))
      | VCType.play => some true
      | VCType.pause => some false,
    playbackRate := none,
    lastUpdated := now }

/-- Claim C6: a PLAY/PAUSE/SEEK/BUFFER from a non-navigating session in an
existing room sets the room's videoState to
`{currentTime: payload.currentTime, isPlaying, lastUpdated: now}` where
`isPlaying` is the payload's for SEEK, the negation of `isBuffering` for
BUFFER, true for PLAY and false for PAUSE. -/
theorem c6_videoState_update (s : ServerState) (connId : Nat) (ty : VCType)
    (p : VCPayload) (code : List Nat) (room : Room)
    (hrc : (s.conns connId).roomCode = some code)
    (hroom : lookupRoom s code = some room)
    (hnav : (s.conns connId).isNavigating = false) :
    lookupRoom (handleVideoControl s connId ty p).1 code =
      some { room with videoState := some (c6ExpectedVS ty p s.now) } := by
  cases ty <;>
    simp only [handleVideoControl, hrc, hroom, hnav, vcIsPlaying, c6ExpectedVS,
      Bool.false_eq_true, if_false, lookupRoom_setRoom_self]

def wPlayPayload : VCPayload :=
  { currentTime := 12, isPlaying := none, isBuffering := none }

/-- Witness for C6: H sends PLAY at time 12 in the two-participant room. -/
theorem c6_witness :
    ((wState.conns 0).roomCode = some wCode ∧ lookupRoom wState wCode = some wRoom ∧
        (wState.conns 0).isNavigating = false) ∧
      lookupRoom (handleVideoControl wState 0 VCType.play wPlayPayload).1 wCode =
        some { wRoom with videoState := some (c6ExpectedVS VCType.play wPlayPayload wState.now) } :=
  ⟨⟨rfl, rfl, rfl⟩,
    c6_videoState_update wState 0 VCType.play wPlayPayload wCode wRoom rfl rfl rfl⟩

/-! ### C4 — broadcast URL partition -/

/-- Claim C4: a PLAY/PAUSE/SEEK/BUFFER or SYNC broadcast is never delivered
to a session with `isNavigating = true`, and never to a session whose
effective URL (its `currentUrl`, or the room's when absent) and the
sender's effective URL are both known yet different. -/
theorem c4_url_partition (s : ServerState) (connId : Nat) (ty : VCType)
    (p : VCPayload) (q : SyncPayload) (code : List Nat) (room : Room)
    (hrc : (s.conns connId).roomCode = some code)
    (hroom : lookupRoom s code = some room) :
    (∀ pr ∈ (handleVideoControl s connId ty p).2,
        (s.conns pr.1).isNavigating = false ∧
          urlMismatch room (s.conns connId) (s.conns pr.1) = false) ∧
      (∀ pr ∈ (handleSync s connId q).2,
        (s.conns pr.1).isNavigating = false ∧
          urlMismatch room (s.conns connId) (s.conns pr.1) = false) := by
  constructor
  · cases hnav : (s.conns connId).isNavigating with
    | true => simp [handleVideoControl, hrc, hroom, hnav]
    | false =>
        intro pr hpr
        simp only [handleVideoControl, hrc, hroom, hnav, Bool.false_eq_true, if_false,
          List.mem_map, List.mem_filter] at hpr
        obtain ⟨c, ⟨hcmem, hcond⟩, rfl⟩ := hpr
        simp only [Bool.and_eq_true, Bool.not_eq_true'] at hcond
        exact ⟨hcond.1.2, hcond.2⟩
  · cases hnav : (s.conns connId).isNavigating with
    | true => simp [handleSync, hrc, hroom, hnav]
    | false =>
        intro pr hpr
        simp only [handleSync, hrc, hroom, hnav, Bool.false_eq_true, if_false,
          List.mem_map, List.mem_filter] at hpr
        obtain ⟨c, ⟨hcmem, hcond⟩, rfl⟩ := hpr
        simp only [Bool.and_eq_true, Bool.not_eq_true'] at hcond
        exact ⟨hcond.1.2, hcond.2⟩

def wSyncPayload : SyncPayload :=
  { currentTime := 34, isPlaying := some true, playbackRate := some 1 }

/-- Witness for C4: H broadcasts PLAY and SYNC in the two-participant room. -/
theorem c4_witness :
    ((wState.conns 0).roomCode = some wCode ∧ lookupRoom wState wCode = some wRoom) ∧
      ((∀ pr ∈ (handleVideoControl wState 0 VCType.play wPlayPayload).2,
          (wState.conns pr.1).isNavigating = false ∧
            urlMismatch wRoom (wState.conns 0) (wState.conns pr.1) = false) ∧
        (∀ pr ∈ (handleSync wState 0 wSyncPayload).2,
          (wState.conns pr.1).isNavigating = false ∧
            urlMismatch wRoom (wState.conns 0) (wState.conns pr.1) = false)) :=
  ⟨⟨rfl, rfl⟩,
    c4_url_partition wState 0 VCType.play wPlayPayload wSyncPayload wCode wRoom rfl rfl⟩

/-! ### C1 — the ALL_READY readiness barrier -/

/-- The barrier behaviour of `handleVideoReady`: writing `allR` for "every
session in `room.clients` is ready once the sender has been marked ready"
and `total` for `|room.clients|`, an ALL_READY carrying
`pendingSyncTime || 0` and `total` goes to every open client (sender
included) and the pending sync fields are cleared exactly when
`allR ∧ total > 0`; otherwise no ALL_READY is emitted and the room is
untouched. -/
def c1Barrier (s : ServerState) (connId : Nat) (code : List Nat) (room : Room) : Prop :=
  let r := handleVideoReady s connId
  let total := room.clients.length
  let allR := room.clients.all (fun c => (c == connId) || (s.conns c).isReady)
  let clearedRoom : Room := { room with pendingSyncTime := none, pendingSyncUser := none }
  ((allR = true ∧ 0 < total) →
      r.2 = (room.clients.filter (fun c => (s.conns c).wsOpen)).map
          (fun c => (c, SMsg.allReady (jsOrInt room.pendingSyncTime 0) total)) ∧
        lookupRoom r.1 code = some clearedRoom) ∧
    (¬(allR = true ∧ 0 < total) →
      (∀ pr ∈ r.2, ∀ t n, pr.2 ≠ SMsg.allReady t n) ∧
        lookupRoom r.1 code = some room)

/-- Claim C1 (amended): ALL_READY fires, to every open client including the
sender and with `participants = |room.clients|`, exactly when every session
in `room.clients` is ready (after marking the sender) and the room is
non-empty, and the pending sync fields are then cleared; the broadcast
carries `pendingSyncTime || 0`.  The original claim's last clause is false:
because the barrier re-evaluates to "all ready" again, a redundant
VIDEO_READY after release DOES re-broadcast ALL_READY (see the
counterexample, where it carries currentTime 0). -/
theorem c1_allReady_barrier (s : ServerState) (connId : Nat) (code : List Nat)
    (room : Room)
    (hrc : (s.conns connId).roomCode = some code)
    (hroom : lookupRoom s code = some room) :
    c1Barrier s connId code room := by
  have hall : ∀ c, ((updConn s connId
      (fun x => { x with isReady := true, currentUrl := room.currentUrl })).conns c).isReady
      = ((c == connId) || (s.conns c).isReady) := by
    intro c
    by_cases hc : c = connId <;> simp [updConn, hc]
  have hws : ∀ c, ((updConn s connId
      (fun x => { x with isReady := true, currentUrl := room.currentUrl })).conns c).wsOpen
      = (s.conns c).wsOpen := by
    intro c
    by_cases hc : c = connId <;> simp [updConn, hc]
  have hallrw : room.clients.all (fun c => ((updConn s connId
      (fun x => { x with isReady := true, currentUrl := room.currentUrl })).conns c).isReady)
      = room.clients.all (fun c => (c == connId) || (s.conns c).isReady) :=
    list_all_congr _ _ _ (fun c _ => hall c)
  have hfilrw : room.clients.filter (fun c => ((updConn s connId
      (fun x => { x with isReady := true, currentUrl := room.currentUrl })).conns c).wsOpen)
      = room.clients.filter (fun c => (s.conns c).wsOpen) :=
    List.filter_congr (fun c _ => hws c)
  constructor
  · rintro ⟨hA, hT⟩
    have hcond : (room.clients.all (fun c => ((updConn s connId
        (fun x => { x with isReady := true, currentUrl := room.currentUrl })).conns c).isReady)
        && decide (0 < room.clients.length)) = true := by
      rw [hallrw]
      simp [hA, hT]
    simp only [handleVideoReady, hrc, hroom, hcond, if_true]
    exact ⟨by rw [hfilrw], lookupRoom_setRoom_self _ _ _⟩
  · intro hA
    have hcond : (room.clients.all (fun c => ((updConn s connId
        (fun x => { x with isReady := true, currentUrl := room.currentUrl })).conns c).isReady)
        && decide (0 < room.clients.length)) = false := by
      rw [hallrw]
      by_cases hb : (room.clients.all (fun c => (c == connId) || (s.conns c).isReady)) = true
      · have hT : ¬ 0 < room.clients.length := fun ht => hA ⟨hb, ht⟩
        have hlen : room.clients = [] := List.length_eq_zero.mp (by omega)
        simp [hb, hlen]
      · rw [Bool.not_eq_true] at hb
        simp [hb]
    simp only [handleVideoReady, hrc, hroom, hcond, Bool.false_eq_true, if_false]
    refine ⟨?_, hroom⟩
    intro pr hpr t n
    simp only [List.mem_map] at hpr
    obtain ⟨c, _, rfl⟩ := hpr
    simp

/-- Witness for C1: in the fresh two-participant room every client is
ready, so a VIDEO_READY from G releases the barrier. -/
theorem c1_witness :
    ((wState.conns 1).roomCode = some wCode ∧ lookupRoom wState wCode = some wRoom) ∧
      c1Barrier wState 1 wCode wRoom :=
  ⟨⟨rfl, rfl⟩, c1_allReady_barrier wState 1 wCode wRoom rfl rfl⟩

/-- H changes URL at time 50, then both clients report VIDEO_READY: the
barrier releases with ALL_READY at 50. -/
def wNavTrace : List Event :=
  wTrace ++ [Event.urlChange 0 (some wUrl) (some 50),
             Event.videoReady 0, Event.videoReady 1]

def wNavState : ServerState := (runTrace initState wNavTrace).1

/-- Counterexample to C1 as stated: after the barrier has released
(pendingSyncTime is cleared and ALL_READY at 50 was already broadcast), a
redundant VIDEO_READY from G triggers ANOTHER ALL_READY broadcast, now
carrying currentTime 0. -/
theorem c1_counterexample :
    (lookupRoom wNavState wCode).map Room.pendingSyncTime = some none ∧
      (0, SMsg.allReady 50 2) ∈ (runTrace initState wNavTrace).2 ∧
      (step wNavState (Event.videoReady 1)).2 =
        [(0, SMsg.allReady 0 2), (1, SMsg.allReady 0 2)] := by
  decide

/-! ### C2 / C3 — implicit disconnect of the host -/

/-- H (the host) disconnects implicitly from the two-participant room. -/
def wDiscTrace : List Event := wTrace ++ [Event.disconnect 0]

def wDiscState : ServerState := (runTrace initState wDiscTrace).1

/-- Claim C2 evaluated at the failing input: the pending-disconnect entry
correctly records `wasHost = true`, but `handleLeaveRoom` has already reset
the captured `clientData.isHost` to false, so when the grace timer fires it
broadcasts the single USER_LEFT (with the effective participant count) and
then SKIPS host election: the host reference still names the departed
connection 0 and G (connection 1) is not made host. -/
theorem c2_grace_expiry_no_host_election :
    (lookupRoom wDiscState wCode).map (fun r => alGet wStrH r.pendingDisconnects) =
        some (some { timerId := 0, wasHost := true, disconnectedAt := 0 }) ∧
      (wDiscState.conns 0).isHost = false ∧
      (step wDiscState (Event.fireTimer 0)).2 = [(1, SMsg.userLeft (some wStrH) 1)] ∧
      (lookupRoom (step wDiscState (Event.fireTimer 0)).1 wCode).map
          (fun r => (r.host, r.clients)) = some (0, [1]) ∧
      ((step wDiscState (Event.fireTimer 0)).1.conns 1).isHost = false := by
  decide

/-- The invariant claimed by C3, stated in the spec's words: in a room with
a non-empty clients map, the host reference names a client in that map. -/
def hostInvariant (s : ServerState) : Prop :=
  ∀ kv ∈ s.rooms, kv.2.clients ≠ [] → kv.2.host ∈ kv.2.clients

/-- Counterexample to C3 as stated: after the host's implicit disconnect
the room has a non-empty clients map but its host reference names the
departed connection, which is no longer a member. -/
theorem c3_counterexample : ¬ hostInvariant wDiscState := by
  unfold hostInvariant
  decide

/-- Claim C3 (amended): when the host departs via an explicit LEAVE_ROOM
and other clients remain (none sharing the leaver's username), the host
reference is reassigned at that instant to a remaining client, which is
marked host.  The claimed invariant itself — host ∈ clients whenever
clients is non-empty — is refuted by the counterexample (implicit host
disconnect), and explicit reassignment-on-departure is all that holds: the
reference can also be left dangling without any disconnect, e.g. when a
duplicate-username JOIN_ROOM evicts the host from `clients`. -/
theorem c3_amended_host_reassigned_on_explicit_leave (s : ServerState)
    (connId : Nat) (code : List Nat) (room : Room) (u : String)
    (hrc : (s.conns connId).roomCode = some code)
    (hroom : lookupRoom s code = some room)
    (hu : (s.conns connId).username = some u)
    (hnd : room.clients.Nodup)
    (hin : connId ∈ room.clients)
    (hhost : (s.conns connId).isHost = true)
    (hrem : room.clients.erase connId ≠ [])
    (hnorec : ∀ c ∈ room.clients.erase connId,
      ((s.conns c).username == (s.conns connId).username) = false) :
    ∃ roomF, lookupRoom (handleLeaveRoom s connId true).1 code = some roomF ∧
      roomF.host ∈ roomF.clients ∧
      ((handleLeaveRoom s connId true).1.conns roomF.host).isHost = true := by
  have hcont : room.clients.contains connId = true := List.elem_eq_true_of_mem hin
  rcases herase : room.clients.erase connId with _ | ⟨nh, t⟩
  · exact absurd herase hrem
  have hany : ((room.clients.erase connId).any
      (fun c => (s.conns c).username == (s.conns connId).username)) = false := by
    rw [List.any_eq_false]
    intro c hc
    simp [hnorec c hc]
  have hnh_mem : nh ∈ room.clients.erase connId := by
    rw [herase]; exact List.mem_cons_self _ _
  have hneq : nh ≠ connId := ((List.Nodup.mem_erase_iff hnd).mp hnh_mem).1
  have hlen : ¬((room.clients.erase connId).length + room.pendingDisconnects.length = 0) := by
    rw [herase]; simp
  simp only [handleLeaveRoom, hrc, hroom, hcont, Bool.not_true, Bool.false_eq_true, if_false,
    herase, hany, hu, hhost]
  have hany2 : ((nh :: t).any fun c => (s.conns c).username == some u) = false := by
    rw [← herase, ← hu]; exact hany
  have hlen2 : ¬((nh :: t).length + room.pendingDisconnects.length = 0) := by
    rw [← herase]; exact hlen
  simp only [hany2, Bool.false_eq_true, if_false, Bool.false_and, hlen2]
  have hdec : decide (0 < t.length + 1) = true := decide_eq_true (Nat.succ_pos _)
  rcases hpd : alGet u room.pendingDisconnects with _ | pd
  all_goals
    simp only [hpd, Option.isSome_some, Option.isSome_none, Bool.false_eq_true, if_true,
      if_false, Bool.true_and, List.head?, List.length_cons, hdec,
      lookupRoom, setRoom, updConn, alGet_alSet_self]
    refine ⟨_, rfl, List.mem_cons_self _ _, ?_⟩
    simp [hneq, clearCD]

/-- Witness for the amended C3: the host H leaves the two-participant room
explicitly; G becomes the host. -/
theorem c3_amended_witness :
    ((wState.conns 0).roomCode = some wCode ∧ lookupRoom wState wCode = some wRoom ∧
        (wState.conns 0).username = some wStrH ∧ wRoom.clients.Nodup ∧
        0 ∈ wRoom.clients ∧ (wState.conns 0).isHost = true ∧
        wRoom.clients.erase 0 ≠ [] ∧
        (∀ c ∈ wRoom.clients.erase 0,
          ((wState.conns c).username == (wState.conns 0).username) = false)) ∧
      (∃ roomF, lookupRoom (handleLeaveRoom wState 0 true).1 wCode = some roomF ∧
        roomF.host ∈ roomF.clients ∧
        ((handleLeaveRoom wState 0 true).1.conns roomF.host).isHost = true) :=
  ⟨⟨rfl, rfl, rfl, by decide, by decide, rfl, by decide, by decide⟩,
    c3_amended_host_reassigned_on_explicit_leave wState 0 wCode wRoom wStrH
      rfl rfl rfl (by decide) (by decide) rfl (by decide) (by decide)⟩

/-! ### C5 — grace-period reconnection -/

theorem connId_not_mem_dups (l : List Nat) (p : Nat → Bool) (i : Nat) :
    i ∉ l.filter (fun c => p c && (c != i)) := by
  intro h
  have h2 := (List.mem_filter.mp h).2
  simp at h2

theorem foldl_updConn_conns_other (l : List Nat) (f : Session → Session) (i : Nat)
    (h : i ∉ l) :
    ∀ s : ServerState, ((l.foldl (fun acc c => updConn acc c f) s).conns i) = s.conns i := by
  induction l with
  | nil => intro s; rfl
  | cons hd t ih =>
      intro s
      have hne : i ≠ hd := fun he => h (he ▸ List.mem_cons_self hd t)
      rw [List.foldl_cons, ih (fun hm => h (List.mem_cons_of_mem hd hm))]
      simp [updConn, hne]

theorem foldl_updConn_timers (l : List Nat) (f : Session → Session) :
    ∀ s : ServerState, (l.foldl (fun acc c => updConn acc c f) s).timers = s.timers := by
  induction l with
  | nil => intro s; rfl
  | cons hd t ih => intro s; rw [List.foldl_cons, ih]; rfl

theorem setRoom_timers (s : ServerState) (c : List Nat) (r : Room) :
    (setRoom s c r).timers = s.timers := rfl

theorem updConn_timers (s : ServerState) (i : Nat) (f : Session → Session) :
    (updConn s i f).timers = s.timers := rfl

theorem updConn_conns_at (s : ServerState) (i j : Nat) (f : Session → Session) :
    (updConn s i f).conns j = if j = i then f (s.conns j) else s.conns j := rfl

theorem setRoom_conns (s : ServerState) (c : List Nat) (r : Room) :
    (setRoom s c r).conns = s.conns := rfl

def isJoinLeaveMsg : SMsg → Bool
  | SMsg.userJoined _ _ => true
  | SMsg.userLeft _ _ => true
  | _ => false

/-- The reconnection behaviour claimed by C5 for a JOIN_ROOM under a
username with a live grace-period entry `pd`: its timer is cancelled, the
entry removed, the response is ROOM_JOINED with `isReconnection = true`, no
USER_JOINED/USER_LEFT is broadcast, and when the departed session
`wasHost` both the session flag and the room's host reference are restored
to the new connection. -/
def c5Reconnection (s : ServerState) (connId : Nat) (rc : List Nat) (u : String)
    (room : Room) (pd : Pending) : Prop :=
  let r := handleJoinRoom s connId (some rc) (some u)
  let code := jsUpper rc
  (alGet pd.timerId r.1.timers = none) ∧
    (∃ roomF, lookupRoom r.1 code = some roomF ∧
      alGet u roomF.pendingDisconnects = none ∧
      (pd.wasHost = true → roomF.host = connId)) ∧
    (∃ n, r.2.head? = some (connId, SMsg.roomJoined code n room.currentUrl room.platform true)) ∧
    (r.2.all (fun pr => !(isJoinLeaveMsg pr.2)) = true) ∧
    (pd.wasHost = true → (r.1.conns connId).isHost = true)

/-- Claim C5: a JOIN_ROOM with username `u` while `u` has a live
pending-disconnect entry cancels the entry's timer and removes it, responds
ROOM_JOINED with isReconnection = true, broadcasts no USER_JOINED or
USER_LEFT, and restores isHost and the room's host reference to the new
connection when the departed session wasHost.  (Timer and entry keys are
assumed duplicate-free, which the fresh-id discipline guarantees.) -/
theorem c5_grace_reconnection (s : ServerState) (connId : Nat) (rc : List Nat)
    (u : String) (room : Room) (pd : Pending)
    (hroom : lookupRoom s (jsUpper rc) = some room)
    (hu : truthyS (some u) = true)
    (hpd : alGet u room.pendingDisconnects = some pd)
    (hopen : (s.conns connId).wsOpen = true)
    (htnd : (s.timers.map Prod.fst).Nodup)
    (hpdnd : (room.pendingDisconnects.map Prod.fst).Nodup) :
    c5Reconnection s connId rc u room pd := by
  have hju : jsOrStr (some u) strGuest = u := by simp [jsOrStr, hu]
  unfold c5Reconnection
  refine ⟨?_, ?_, ?_, ?_, ?_⟩
  · -- the grace timer is cancelled
    rcases hdel : room.deleteTimeout with _ | dtid <;> cases hwh : pd.wasHost <;>
      simp only [handleJoinRoom, hroom, hju, hpd, hdel, hwh, Option.isSome_some, if_true,
        if_false, Bool.false_eq_true, setRoom_timers, updConn_timers, foldl_updConn_timers] <;>
      first
        | exact alGet_alErase_self _ _ htnd
        | exact alGet_alErase_self _ _ ((alErase_keys_sublist _ _).nodup htnd)
  · -- the pending entry is removed; host reference restored when wasHost
    rcases hdel : room.deleteTimeout with _ | dtid <;> cases hwh : pd.wasHost <;>
      simp only [handleJoinRoom, hroom, hju, hpd, hdel, hwh, Option.isSome_some, if_true,
        if_false, Bool.false_eq_true, lookupRoom_setRoom_self] <;>
      refine ⟨_, rfl, alGet_alErase_self _ _ hpdnd, ?_⟩ <;>
      simp
  · -- the first response is ROOM_JOINED with isReconnection = true
    rcases hdel : room.deleteTimeout with _ | dtid <;> cases hwh : pd.wasHost <;>
      simp only [handleJoinRoom, hroom, hju, hpd, hdel, hwh, Option.isSome_some, if_true,
        if_false, Bool.false_eq_true, sendTo, setRoom_conns, updConn_conns_at,
        eq_self_iff_true, foldl_updConn_conns_other _ _ _ (connId_not_mem_dups _ _ _),
        hopen, List.cons_append, List.nil_append, List.head?_cons] <;>
      exact ⟨_, rfl⟩
  · -- no USER_JOINED / USER_LEFT is broadcast
    rcases hdel : room.deleteTimeout with _ | dtid <;> cases hwh : pd.wasHost <;>
      rcases hvs : room.videoState with _ | vs <;>
      simp only [handleJoinRoom, hroom, hju, hpd, hdel, hwh, hvs, Option.isSome_some, if_true,
        if_false, Bool.false_eq_true, sendTo, List.all_append] <;>
      (repeat' split) <;>
      simp [isJoinLeaveMsg]
  · -- host status restored to the new connection when wasHost
    rcases hdel : room.deleteTimeout with _ | dtid <;> cases hwh : pd.wasHost <;>
      simp only [handleJoinRoom, hroom, hju, hpd, hdel, hwh, Option.isSome_some, if_true,
        if_false, Bool.false_eq_true, setRoom_conns, updConn_conns_at, eq_self_iff_true,
        foldl_updConn_conns_other _ _ _ (connId_not_mem_dups _ _ _)] <;>
      simp

def wDiscPd : Pending := { timerId := 0, wasHost := true, disconnectedAt := 0 }

def wDiscRoom : Room :=
  { id := 0, code := wCode, host := 0, clients := [1], videoState := none,
    currentUrl := none, platform := none, pendingDisconnects := [(wStrH, wDiscPd)],
    pendingSyncTime := none, pendingSyncUser := none, deleteTimeout := none,
    createdAt := 0 }

/-- Witness for C5: H reconnects on a fresh connection (2) while H's
grace-period entry is live. -/
theorem c5_witness :
    (lookupRoom wDiscState (jsUpper wCode) = some wDiscRoom ∧
        truthyS (some wStrH) = true ∧
        alGet wStrH wDiscRoom.pendingDisconnects = some wDiscPd ∧
        (wDiscState.conns 2).wsOpen = true ∧
        (wDiscState.timers.map Prod.fst).Nodup ∧
        (wDiscRoom.pendingDisconnects.map Prod.fst).Nodup) ∧
      c5Reconnection wDiscState 2 wCode wStrH wDiscRoom wDiscPd :=
  ⟨⟨rfl, rfl, rfl, rfl, by decide, by decide⟩,
    c5_grace_reconnection wDiscState 2 wCode wStrH wDiscRoom wDiscPd
      rfl rfl rfl rfl (by decide) (by decide)⟩

end OpenSync
